import Mathlib

/-!
Shallow embedding of `apps/voidscript-editor/src-tauri/src/lib.rs`.

The Rust file is the native bootstrap of a Tauri desktop application: two
command handlers (`toggle_devtools`, `reload_webview`), a fixed plugin list,
a setup callback that auto-opens devtools in debug builds, and the blocking
run loop whose failure is fatal via `expect`.

Framework state that the code reads or writes is made explicit:
a `WindowState` carries the devtools open flag, the log of JavaScript
evaluation requests issued against the webview, and a counter of native
reload-API calls (the webview exposes such an API; this code never calls it).
Fallibility of the framework's `eval` request is an explicit oracle argument,
since the Rust side only sees and discards a `Result`.
-/

/-- State of one webview window as observed through the framework API surface
this file touches: whether devtools are open, which scripts have been
requested for evaluation, and how many native reload calls were issued. -/
structure WindowState where
  devtoolsOpen : Bool
  evalRequests : List String
  nativeReloads : Nat
deriving DecidableEq

/-- `WebviewWindow::is_devtools_open`. -/
def is_devtools_open (w : WindowState) : Bool :=
  w.devtoolsOpen

/-- `WebviewWindow::open_devtools`. -/
def open_devtools (w : WindowState) : WindowState :=
  { w with devtoolsOpen := true }

/-- `WebviewWindow::close_devtools`. -/
def close_devtools (w : WindowState) : WindowState :=
  { w with devtoolsOpen := false }

/-- `WebviewWindow::eval`: issues the evaluation request for `script` and
returns a `Result` whose success is decided by the framework (`evalOk`).
The request itself is recorded regardless of the outcome. -/
def eval (w : WindowState) (script : String) (evalOk : Bool) :
    Except String Unit × WindowState :=
  (if evalOk then Except.ok () else Except.error ("eval failed"),
   { w with evalRequests := w.evalRequests ++ [script] })

/-- `WebviewWindow::reload`, the native reload API. Present on the framework
window but never called by this file. -/
def native_reload (w : WindowState) : WindowState :=
  { w with nativeReloads := w.nativeReloads + 1 }

/-- Command `toggle_devtools` (lib.rs lines 4-11): if the window's devtools
are open, close them, else open them. Returns only the new window state:
no value and no error reach the caller. -/
def toggle_devtools (window : WindowState) : WindowState :=
  if is_devtools_open window then
    close_devtools window
  else
    open_devtools window

/-- The exact script string passed to `eval` by `reload_webview`. -/
def reloadScript : String :=
  "window.location.reload()"

/-- Command `reload_webview` (lib.rs lines 14-17): `let _ = webview.eval(...)`.
The `Result` of the eval request is discarded (`let _ =`); only the state
component survives. -/
def reload_webview (webview : WindowState) (evalOk : Bool) : WindowState :=
  (eval webview reloadScript evalOk).2

/-- Application state visible to the setup callback: the labelled windows. -/
structure AppState where
  windows : List (String × WindowState)
deriving DecidableEq

/-- Look a window up by label in a labelled window list (first match). -/
def findWindow (ws : List (String × WindowState)) (label : String) :
    Option WindowState :=
  (ws.find? (fun p => p.1 == label)).map Prod.snd

/-- `Manager::get_webview_window`. -/
def get_webview_window (app : AppState) (label : String) : Option WindowState :=
  findWindow app.windows label

/-- Open devtools on every window carrying `label` (labels are unique in the
framework, so this is the effect of `window.open_devtools()` on the handle
returned by `get_webview_window`). -/
def openDevtoolsAt (ws : List (String × WindowState)) (label : String) :
    List (String × WindowState) :=
  ws.map (fun p => if p.1 == label then (p.1, open_devtools p.2) else p)

/-- `open_devtools` applied through the app to a labelled window. -/
def app_open_devtools (app : AppState) (label : String) : AppState :=
  { app with windows := openDevtoolsAt app.windows label }

/-- The well-known label of the main window. -/
def mainLabel : String :=
  "main"

/-- The setup closure of `run` (lib.rs lines 30-38): in a debug build
(`cfg!(debug_assertions)`, the `debug` argument), look the `"main"` window up
and, when found, open its devtools; in every case end with `Ok(())`. -/
def setupCallback (debug : Bool) (app : AppState) : Except String AppState :=
  Except.ok
    (if debug then
      match get_webview_window app mainLabel with
      | some _ => app_open_devtools app mainLabel
      | none => app
    else app)

/-- Configuration of the global-shortcut plugin builder. -/
structure GlobalShortcutConfig where
  shortcuts : List String
deriving DecidableEq

/-- `tauri_plugin_global_shortcut::Builder::new()`: the default configuration,
with no shortcuts registered. -/
def GlobalShortcutConfig.new : GlobalShortcutConfig :=
  { shortcuts := [] }

/-- `Builder::build()` on the global-shortcut plugin builder. -/
def GlobalShortcutConfig.build (c : GlobalShortcutConfig) : GlobalShortcutConfig :=
  c

/-- The capability plugins attached by `run`, one constructor per
`tauri_plugin_*` crate. -/
inductive Plugin where
  | opener
  | clipboardManager
  | dialog
  | fs
  | os
  | process
  | globalShortcut (config : GlobalShortcutConfig)
deriving DecidableEq

/-- `tauri::Builder`: accumulates plugins, the registered command names and
the setup callback. -/
structure Builder where
  plugins : List Plugin
  handlers : List String
  setupFn : Option (AppState → Except String AppState)

/-- `tauri::Builder::default()`. -/
def Builder.default : Builder :=
  { plugins := [], handlers := [], setupFn := none }

/-- `Builder::plugin`: appends one plugin. -/
def Builder.plugin (b : Builder) (p : Plugin) : Builder :=
  { b with plugins := b.plugins ++ [p] }

/-- `Builder::invoke_handler` with `generate_handler![...]`: registers the
command names resolvable from the frontend. -/
def Builder.invoke_handler (b : Builder) (names : List String) : Builder :=
  { b with handlers := names }

/-- `Builder::setup`: installs the setup callback. -/
def Builder.setup (b : Builder) (f : AppState → Except String AppState) : Builder :=
  { b with setupFn := some f }

/-- Command name under which `toggle_devtools` is registered. -/
def toggleDevtoolsName : String :=
  "toggle_devtools"

/-- Command name under which `reload_webview` is registered. -/
def reloadWebviewName : String :=
  "reload_webview"

/-- The builder assembled by `run` (lib.rs lines 20-38) before `.run(...)`:
seven plugins in source order, the two command handlers, the setup callback.
`debug` is the compile-time `cfg!(debug_assertions)` flag. -/
def builtApp (debug : Bool) : Builder :=
  ((((((((Builder.default.plugin Plugin.opener).plugin
      Plugin.clipboardManager).plugin
      Plugin.dialog).plugin
      Plugin.fs).plugin
      Plugin.os).plugin
      Plugin.process).plugin
      (Plugin.globalShortcut GlobalShortcutConfig.new.build)).invoke_handler
      [toggleDevtoolsName, reloadWebviewName]).setup
      (setupCallback debug)

/-- Whether a command name resolves against the builder's invoke handler. -/
def resolveCommand (b : Builder) (name : String) : Bool :=
  b.handlers.contains name

/-- Outcome of the process after `run`: either the run loop is running
normally, or the process terminated with a panic message. -/
inductive ProcessOutcome where
  | running
  | terminated (msg : String)
deriving DecidableEq

/-- The fixed message passed to `.expect(...)` in `run`. -/
def expectMsg : String :=
  "error while running tauri application"

/-- `Result::expect`: on `Ok` the run loop is running; on `Err` the process
panics with the fixed message followed by the error. -/
def expectRun (r : Except String AppState) (msg : String) : ProcessOutcome :=
  match r with
  | Except.ok _ => ProcessOutcome.running
  | Except.error e => ProcessOutcome.terminated (msg ++ ": " ++ e)

/-- `Builder::run(ctx)`: the framework creates the windows (`init`), invokes
the installed setup callback, and enters the event loop; a setup error or a
framework failure (`frameworkFailure`) surfaces as the run result. -/
def runLoop (b : Builder) (init : AppState) (frameworkFailure : Option String) :
    Except String AppState :=
  match b.setupFn with
  | none =>
    match frameworkFailure with
    | none => Except.ok init
    | some e => Except.error e
  | some f =>
    match f init with
    | Except.error e => Except.error e
    | Except.ok app =>
      match frameworkFailure with
      | none => Except.ok app
      | some e => Except.error e

/-- `run` (lib.rs lines 19-41): assemble the builder, start the run loop,
`expect` its result. -/
def run (debug : Bool) (init : AppState) (frameworkFailure : Option String) :
    ProcessOutcome :=
  expectRun (runLoop (builtApp debug) init frameworkFailure) expectMsg

/-- Sample window with devtools closed, for concrete instantiations. -/
def sampleClosed : WindowState :=
  { devtoolsOpen := false, evalRequests := [], nativeReloads := 0 }

/-- Sample window with devtools open, for concrete instantiations. -/
def sampleOpen : WindowState :=
  { devtoolsOpen := true, evalRequests := [], nativeReloads := 0 }

/-- Sample app holding one window labelled `"main"`. -/
def sampleApp : AppState :=
  { windows := [(mainLabel, sampleClosed)] }

/-- Sample app holding no windows at all. -/
def emptyApp : AppState :=
  { windows := [] }

/-- Looking up `label` after `openDevtoolsAt ws label` finds the same window
with its devtools opened. -/
theorem findWindow_openDevtoolsAt (ws : List (String × WindowState)) (l : String) :
    findWindow (openDevtoolsAt ws l) l = (findWindow ws l).map open_devtools := by
  induction ws with
  | nil => rfl
  | cons p t ih =>
    simp only [findWindow, openDevtoolsAt, List.map_cons] at ih ⊢
    cases hb : (p.1 == l) with
    | true => simp [List.find?_cons, hb]
    | false => simpa [List.find?_cons, hb] using ih

/-- C1: `toggle_devtools` inspects whether the window's devtools panel is
open at call time: if open it closes the panel, otherwise it opens it. Its
result type is a plain `WindowState`: no value is returned and no failure
path exists. -/
theorem toggle_devtools_correct (w : WindowState) :
    toggle_devtools w =
      (if is_devtools_open w then close_devtools w else open_devtools w) ∧
    (is_devtools_open w = true → is_devtools_open (toggle_devtools w) = false) ∧
    (is_devtools_open w = false → is_devtools_open (toggle_devtools w) = true) := by
  refine ⟨rfl, fun h => ?_, fun h => ?_⟩ <;>
  · simp only [is_devtools_open] at h
    simp [toggle_devtools, is_devtools_open, close_devtools, open_devtools, h]

/-- Witness for C1 at two concrete windows. -/
theorem toggle_devtools_correct_witness :
    is_devtools_open (toggle_devtools sampleOpen) = false ∧
    is_devtools_open (toggle_devtools sampleClosed) = true :=
  ⟨(toggle_devtools_correct sampleOpen).2.1 rfl,
   (toggle_devtools_correct sampleClosed).2.2 rfl⟩

/-- C2: `reload_webview` records the reload request in every prior state,
and its resulting state does not depend on whether the underlying eval
request succeeds: the failure result is discarded and no error reaches the
caller (the result type is a plain `WindowState`). -/
theorem reload_webview_no_error (w : WindowState) (r1 r2 : Bool) :
    (reload_webview w r1).evalRequests = w.evalRequests ++ [reloadScript] ∧
    reload_webview w r1 = reload_webview w r2 := by
  constructor <;> rfl

/-- C3: in a debug build the setup callback succeeds and opens devtools on
the window labelled `"main"` when it exists; in a release build setup leaves
the app untouched and opens no devtools. -/
theorem setup_debug_opens_main_devtools (app : AppState) (w : WindowState)
    (h : get_webview_window app mainLabel = some w) :
    setupCallback true app = Except.ok (app_open_devtools app mainLabel) ∧
    get_webview_window (app_open_devtools app mainLabel) mainLabel =
      some (open_devtools w) ∧
    is_devtools_open (open_devtools w) = true ∧
    setupCallback false app = Except.ok app := by
  refine ⟨by simp [setupCallback, h], ?_, rfl, rfl⟩
  have h2 : findWindow app.windows mainLabel = some w := h
  show findWindow (openDevtoolsAt app.windows mainLabel) mainLabel =
    some (open_devtools w)
  rw [findWindow_openDevtoolsAt, h2]
  rfl

/-- Witness for C3 at a one-window app whose main window starts closed. -/
theorem setup_debug_opens_main_devtools_witness :
    setupCallback true sampleApp = Except.ok (app_open_devtools sampleApp mainLabel) ∧
    get_webview_window (app_open_devtools sampleApp mainLabel) mainLabel =
      some (open_devtools sampleClosed) ∧
    is_devtools_open (open_devtools sampleClosed) = true ∧
    setupCallback false sampleApp = Except.ok sampleApp :=
  setup_debug_opens_main_devtools sampleApp sampleClosed rfl

/-- C4: in both build configurations `run` assembles exactly the seven
capability plugins in source order, the global-shortcut one with its default
configuration, and the run loop consumes exactly that builder. -/
theorem run_attaches_seven_plugins (d : Bool) (init : AppState)
    (ff : Option String) :
    (builtApp d).plugins =
      [Plugin.opener, Plugin.clipboardManager, Plugin.dialog, Plugin.fs,
       Plugin.os, Plugin.process,
       Plugin.globalShortcut GlobalShortcutConfig.new] ∧
    (builtApp d).plugins.length = 7 ∧
    GlobalShortcutConfig.new = { shortcuts := [] } ∧
    run d init ff = expectRun (runLoop (builtApp d) init ff) expectMsg :=
  ⟨rfl, rfl, rfl, rfl⟩

/-- C5: applying `toggle_devtools` twice restores the original devtools
open/closed state; in particular from the closed state one call opens and a
second call closes again. -/
theorem toggle_devtools_involution (w : WindowState) :
    is_devtools_open (toggle_devtools (toggle_devtools w)) =
      is_devtools_open w ∧
    (is_devtools_open w = false →
      is_devtools_open (toggle_devtools w) = true ∧
      is_devtools_open (toggle_devtools (toggle_devtools w)) = false) := by
  constructor
  · by_cases h : w.devtoolsOpen <;>
      simp [toggle_devtools, is_devtools_open, close_devtools, open_devtools, h]
  · intro h
    simp only [is_devtools_open] at h
    simp [toggle_devtools, is_devtools_open, close_devtools, open_devtools, h]

/-- Witness for C5 starting from a concrete closed window. -/
theorem toggle_devtools_involution_witness :
    is_devtools_open (toggle_devtools sampleClosed) = true ∧
    is_devtools_open (toggle_devtools (toggle_devtools sampleClosed)) = false :=
  (toggle_devtools_involution sampleClosed).2 rfl

/-- C6: the only error path is a failing run loop, which terminates the
process with the fixed `expect` message (followed by the framework error);
when the run loop does not fail, the process keeps running, and the setup
callback itself always succeeds so no other operation surfaces an error. -/
theorem run_single_error_path (d : Bool) (e : String) (init : AppState) :
    run d init (some e) =
      ProcessOutcome.terminated (expectMsg ++ ": " ++ e) ∧
    run d init none = ProcessOutcome.running ∧
    (setupCallback d init).isOk = true ∧
    expectMsg = "error while running tauri application" :=
  ⟨rfl, rfl, rfl, rfl⟩

/-- C7: exactly the two commands `toggle_devtools` and `reload_webview` are
registered with the invoke handler, and a name resolves if and only if it is
one of them. -/
theorem run_registers_two_commands (d : Bool) (n : String) :
    (builtApp d).handlers = [toggleDevtoolsName, reloadWebviewName] ∧
    (builtApp d).handlers.length = 2 ∧
    resolveCommand (builtApp d) toggleDevtoolsName = true ∧
    resolveCommand (builtApp d) reloadWebviewName = true ∧
    (resolveCommand (builtApp d) n = true ↔
      (n = toggleDevtoolsName ∨ n = reloadWebviewName)) := by
  refine ⟨rfl, rfl, rfl, rfl, ?_⟩
  show ([toggleDevtoolsName, reloadWebviewName].contains n = true ↔ _)
  simp [List.contains]

/-- Witness for C7 resolving a concrete command name. -/
theorem run_registers_two_commands_witness :
    resolveCommand (builtApp true) toggleDevtoolsName = true :=
  ((run_registers_two_commands true toggleDevtoolsName).2.2.2.2).2 (Or.inl rfl)

/-- C8: `reload_webview` issues exactly one eval request, for exactly the
script `window.location.reload()`, and never calls the native reload API. -/
theorem reload_webview_exact_script (w : WindowState) (r : Bool) :
    (reload_webview w r).evalRequests = w.evalRequests ++ [reloadScript] ∧
    reloadScript = "window.location.reload()" ∧
    (reload_webview w r).nativeReloads = w.nativeReloads :=
  ⟨rfl, rfl, rfl⟩

/-- C9: the setup callback always returns `Ok`, in both build
configurations and for every app state; when the `"main"` window is absent
in a debug build it leaves the app unchanged and still succeeds. -/
theorem setup_always_ok (d : Bool) (app : AppState) :
    (∃ app2, setupCallback d app = Except.ok app2) ∧
    (get_webview_window app mainLabel = none →
      setupCallback true app = Except.ok app) := by
  refine ⟨⟨_, rfl⟩, fun h => ?_⟩
  simp [setupCallback, h]

/-- Witness for C9 at the app with no windows. -/
theorem setup_always_ok_witness :
    get_webview_window emptyApp mainLabel = none ∧
    setupCallback true emptyApp = Except.ok emptyApp :=
  ⟨rfl, (setup_always_ok true emptyApp).2 rfl⟩

/-- C10: `reload_webview` leaves the devtools open/closed state unchanged,
for every window and every outcome of the eval request. -/
theorem reload_webview_preserves_devtools (w : WindowState) (r : Bool) :
    is_devtools_open (reload_webview w r) = is_devtools_open w :=
  rfl
